import Mathlib

/-!
Verification of the staged fine-tuning training loops of the repository
(src/train.py and src/distiller/teacher_train.py), shallowly embedded in Lean.

Numeric values (parameter values, losses, accuracies) are modelled as
rationals.  The external tensor-framework collaborators that the source
receives as opaque Python objects (the forward pass of the network, the loss
function constructed by nn.CrossEntropyLoss, the numeric update rule of the
Adam optimizer) enter the embedding as function arguments, mirroring how the
source passes them around.  State that Python mutates in place (the model, the
optimizer, the scheduler, the best-checkpoint variables, the sequence of
torch.save calls) is threaded explicitly through a record.
-/

/-- One trainable parameter: its value together with its trainability flag
(the requires_grad attribute of a torch parameter). -/
structure Param where
  value : ℚ
  requires_grad : Bool
deriving DecidableEq

/-- A model (nn.Module): head and backbone parameter lists, the train/eval
mode flag toggled by model.train() and model.eval(), and the class name used
when deriving the default checkpoint path. -/
structure Model where
  head : List Param
  backbone : List Param
  trainingMode : Bool
  className : String
deriving DecidableEq

/-- A state dict: the snapshot of all parameter values returned by
model.state_dict(), an ordered mapping from parameter name to value. -/
structure StateDict where
  headVals : List ℚ
  backboneVals : List ℚ
deriving DecidableEq

/-- The state_dict() method of a module: snapshot of all parameter values. -/
def Model.state_dict (m : Model) : StateDict :=
  ⟨m.head.map Param.value, m.backbone.map Param.value⟩

/-- Write a list of values into a parameter list, keeping each trainability
flag, as load_state_dict does when copying tensors into parameters. -/
def loadValues (ps : List Param) (vs : List ℚ) : List Param :=
  ps.zipWith (fun p v => { p with value := v }) vs

/-- Python-level errors that the embedded fragments can raise. -/
inductive PyErr
  | attributeError
  | typeError
  | fileExistsError
deriving DecidableEq

/-- A Python value held by the best-checkpoint variable of the loops: either a
module (as in teacher_train.py, where best_teacher = copy.deepcopy(teacher))
or a state dict (as in train.py, where
best_student = copy.deepcopy(student.state_dict())). -/
inductive TorchObj
  | mod (m : Model)
  | sd (d : StateDict)
deriving DecidableEq

/-- Attribute access x.state_dict() on the best-checkpoint variable: a module
has the method; an OrderedDict state dict does not, so the access raises
AttributeError. -/
def TorchObj.state_dict : TorchObj → Except PyErr StateDict
  | TorchObj.mod m => Except.ok m.state_dict
  | TorchObj.sd _ => Except.error PyErr.attributeError

/-- The load_state_dict method of a module: accepts a state dict (a mapping)
and copies its values into the live parameters, keeping trainability flags;
passing a non-mapping such as a module raises TypeError in torch. -/
def Model.load_state_dict (m : Model) : TorchObj → Except PyErr Model
  | TorchObj.sd d =>
      Except.ok { m with head := loadValues m.head d.headVals,
                         backbone := loadValues m.backbone d.backboneVals }
  | TorchObj.mod _ => Except.error PyErr.typeError

/-- The unfreeze loop of both controllers: for param in parameters,
param.requires_grad = True. -/
def Model.unfreezeAll (m : Model) : Model :=
  { m with head := m.head.map (fun p => { p with requires_grad := true }),
           backbone := m.backbone.map (fun p => { p with requires_grad := true }) }

/-- Modelled from the spec: the stage-1 freezing step is not in src/ (neither
train_kd nor training sets any requires_grad flag before stage 1; the
unfreeze loop before stage 2 shows the flags are expected to start frozen, so
the marking is performed by model-construction code outside the two files).
Faithful to the spec sentence: Stage 1 (frozen backbone): mark only head
parameters as trainable (backbone parameters frozen, no gradient updates). -/
def freezeBackbone (m : Model) : Model :=
  { m with head := m.head.map (fun p => { p with requires_grad := true }),
           backbone := m.backbone.map (fun p => { p with requires_grad := false }) }

/-- One batch yielded by a data loader: encoded inputs and integer class
labels, one per example. -/
structure Batch where
  datas : List ℚ
  targets : List ℕ
deriving DecidableEq

/-- The per-phase data loaders (the loaders dict of the source). -/
structure Loaders where
  trainBatches : List Batch
  valBatches : List Batch

/-- The per-phase example counts (the dataset_sizes dict of the source). -/
structure DatasetSizes where
  trainSize : ℕ
  valSize : ℕ
deriving DecidableEq

/-- The two phases iterated inside each epoch. -/
inductive Phase
  | train
  | val
deriving DecidableEq

def Phase.isTrain : Phase → Bool
  | Phase.train => true
  | Phase.val => false

def Phase.isVal : Phase → Bool
  | Phase.train => false
  | Phase.val => true

/-- The external collaborators of the loop: forward pass of the network,
loss function, and the data source with its sizes. -/
structure Env where
  forward : Model → List ℚ → List (List ℚ)
  criterion : List (List ℚ) → List ℕ → ℚ
  loaders : Loaders
  sizes : DatasetSizes

def Env.phaseBatches (env : Env) : Phase → List Batch
  | Phase.train => env.loaders.trainBatches
  | Phase.val => env.loaders.valBatches

def Env.phaseSize (env : Env) : Phase → ℕ
  | Phase.train => env.sizes.trainSize
  | Phase.val => env.sizes.valSize

/-- Which parameters an optimizer was constructed over: the head submodule
only (stage 1) or all parameters of the model (stage 2). -/
inductive Scope
  | headOnly
  | all
deriving DecidableEq

/-- An optimizer: the parameter group it owns, its opaque internal numeric
state (such as Adam moment estimates), and the opaque framework-owned update
rule that maps internal state and owned parameter values to their successors.
optimizer.step() mutates exactly the parameters of its own parameter group. -/
structure Optimizer where
  scope : Scope
  state : List ℚ
  update : List ℚ → List ℚ → List ℚ × List ℚ

/-- The step() method: apply the update rule to the owned parameter values,
leaving every other parameter untouched. -/
def Optimizer.step (o : Optimizer) (m : Model) : Optimizer × Model :=
  match o.scope with
  | Scope.headOnly =>
      let r := o.update o.state (m.head.map Param.value)
      ({ o with state := r.1 }, { m with head := loadValues m.head r.2 })
  | Scope.all =>
      let r := o.update o.state ((m.head ++ m.backbone).map Param.value)
      ({ o with state := r.1 },
       { m with head := loadValues m.head (r.2.take m.head.length),
                backbone := loadValues m.backbone (r.2.drop m.head.length) })

/-- The mode argument of ReduceLROnPlateau; the torch default is min. -/
inductive SchedMode
  | min
  | max
deriving DecidableEq

/-- The construction arguments of a ReduceLROnPlateau scheduler that the
claims speak about. -/
structure SchedulerConfig where
  mode : SchedMode
  factor : ℚ
  patience : ℕ
deriving DecidableEq

/-- A plateau scheduler: its construction configuration and the trace of
metric values passed to its step() calls, in order.  The numeric
learning-rate policy it applies is owned by the external framework; what the
loop is responsible for is which metrics it feeds and when. -/
structure Scheduler where
  config : SchedulerConfig
  metrics : List ℚ
deriving DecidableEq

/-- The step(metric) method of the scheduler: record one advancement. -/
def Scheduler.step (s : Scheduler) (metric : ℚ) : Scheduler :=
  { s with metrics := s.metrics ++ [metric] }

/-- Index of the first maximal score, as torch.max over the class dimension. -/
def argmaxIdx (l : List ℚ) : ℕ :=
  (l.enum.foldl (fun acc p => if p.2 > acc.2 then p else acc) (0, l.headD 0)).1

/-- Count of examples whose predicted label equals the true label, as
torch.sum(pred == targets.data). -/
def countCorrects (preds : List ℕ) (targets : List ℕ) : ℕ :=
  (preds.zip targets).countP (fun pt => pt.1 == pt.2)

/-- The accumulator threaded through the inner batch loop of a phase. -/
structure BatchAcc where
  m : Model
  o : Optimizer
  running_loss : ℚ
  running_corrects : ℕ

/-- The body of the inner batch loop, identical in both source files:
optimizer.zero_grad() (clears gradient buffers, no effect on values), forward
pass, argmax prediction, loss; in the train phase loss.backward() followed by
optimizer.step(); then accumulate running loss (loss times batch size) and
running correct count, both computed from the pre-step outputs. -/
def runBatch (env : Env) (phase : Phase) (a : BatchAcc) (b : Batch) : BatchAcc :=
  let outp := env.forward a.m b.datas
  let pred := outp.map argmaxIdx
  let loss := env.criterion outp b.targets
  let om :=
    match phase with
    | Phase.train => a.o.step a.m
    | Phase.val => (a.o, a.m)
  { m := om.2, o := om.1,
    running_loss := a.running_loss + loss * (b.datas.length : ℚ),
    running_corrects := a.running_corrects + countCorrects pred b.targets }

/-- The state mutated across an invocation of either epoch-loop runner. -/
structure RunState where
  student : Model
  optimizer : Optimizer
  scheduler : Scheduler
  best : TorchObj
  best_acc : ℚ
  saves : List StateDict

/-- Existence flag of the Weights directory on the filesystem. -/
structure FS where
  weightsDirMade : Bool
deriving DecidableEq

/-- os.makedirs on the Weights path with the default exist_ok=False: raises
FileExistsError when the directory already exists, creates it otherwise. -/
def makedirs (fs : FS) : Except PyErr FS :=
  if fs.weightsDirMade then Except.error PyErr.fileExistsError
  else Except.ok ⟨true⟩

namespace Train

/-- Scheduler of stage 1 of train_kd, line 85 of src/train.py:
ReduceLROnPlateau(optimizer, mode=max, factor=0.1, patience=3). -/
def stage1SchedulerConfig : SchedulerConfig :=
  ⟨SchedMode.max, 1/10, 3⟩

/-- Scheduler of stage 2 of train_kd, line 110 of src/train.py:
ReduceLROnPlateau(optimizer, factor=0.1, patience=2); mode is left at the
torch default, min. -/
def stage2SchedulerConfig : SchedulerConfig :=
  ⟨SchedMode.min, 1/10, 2⟩

/-- One phase of the train function of src/train.py (lines 22 to 69): set the
model mode, fold the batch body over the batches of the phase, in the train
phase advance the scheduler once with 100 * running corrects / train size,
compute epoch loss and epoch accuracy, and in the validate phase update the
best state and append one checkpoint write when the epoch accuracy strictly
exceeds the best accuracy.  Returns the new state together with the pair
(epoch loss, epoch accuracy). -/
def runPhase (env : Env) (phase : Phase) (s : RunState) : RunState × ℚ × ℚ :=
  let m0 : Model := { s.student with trainingMode := phase.isTrain }
  let r : BatchAcc :=
    (env.phaseBatches phase).foldl (runBatch env phase) ⟨m0, s.optimizer, 0, 0⟩
  let sched1 : Scheduler :=
    if phase.isTrain then
      s.scheduler.step (100 * (r.running_corrects : ℚ) / (env.sizes.trainSize : ℚ))
    else s.scheduler
  let epoch_loss : ℚ := r.running_loss / (env.phaseSize phase : ℚ)
  let epoch_acc : ℚ := (r.running_corrects : ℚ) / (env.phaseSize phase : ℚ)
  let improved : Bool := phase.isVal && decide (epoch_acc > s.best_acc)
  ({ student := r.m, optimizer := r.o, scheduler := sched1,
     best := if improved then TorchObj.sd r.m.state_dict else s.best,
     best_acc := if improved then epoch_acc else s.best_acc,
     saves := if improved then s.saves ++ [r.m.state_dict] else s.saves },
   epoch_loss, epoch_acc)

/-- One epoch: a train phase followed by a validate phase. -/
def runEpoch (env : Env) (s : RunState) : RunState :=
  (runPhase env Phase.val (runPhase env Phase.train s).1).1

/-- The epoch-loop runner train of src/train.py: run the epoch body the given
number of times.  The source returns the pair (best_student, best_acc) and
mutates the remaining state in place; the embedding returns the whole record. -/
def train (env : Env) : ℕ → RunState → RunState
  | 0, s => s
  | Nat.succ n, s => train env n (runEpoch env s)

/-- Default checkpoint path handling of train_kd, lines 76 to 79 of
src/train.py.  Note the inverted existence check of the source: os.makedirs
is invoked exactly when the Weights directory already exists (raising
FileExistsError), and the directory is never created when it is missing. -/
def resolvePath (path_save_weight : Option String) (name : String) (fs : FS) :
    Except PyErr (String × FS) :=
  match path_save_weight with
  | some p => Except.ok (p, fs)
  | none =>
      if fs.weightsDirMade then
        match makedirs fs with
        | Except.error e => Except.error e
        | Except.ok fs2 => Except.ok ("Weights/" ++ name ++ ".pth", fs2)
      else Except.ok ("Weights/" ++ name ++ ".pth", fs)

/-- Initial stage-1 state of train_kd (lines 82 to 95 of src/train.py): a
fresh Adam optimizer over student.head.parameters() only, a fresh stage-1
plateau scheduler, best_student = copy.deepcopy(student.state_dict()),
best_acc = 0, and no checkpoint write performed yet. -/
def stage1Init (student : Model) (upd1 : List ℚ → List ℚ → List ℚ × List ℚ) :
    RunState :=
  { student := student,
    optimizer := ⟨Scope.headOnly, [], upd1⟩,
    scheduler := ⟨stage1SchedulerConfig, []⟩,
    best := TorchObj.sd student.state_dict,
    best_acc := 0,
    saves := [] }

/-- Stage-2 state of train_kd (lines 103 to 112 of src/train.py), built from
the stage-1 result and the model m1 produced by the reload: unfreeze every
parameter, construct a fresh Adam optimizer over all parameters and a fresh
stage-2 plateau scheduler, and keep threading the best state and the write
trace of stage 1. -/
def stage2State (s1 : RunState) (m1 : Model)
    (upd2 : List ℚ → List ℚ → List ℚ × List ℚ) : RunState :=
  { student := m1.unfreezeAll,
    optimizer := ⟨Scope.all, [], upd2⟩,
    scheduler := ⟨stage2SchedulerConfig, []⟩,
    best := s1.best,
    best_acc := s1.best_acc,
    saves := s1.saves }

/-- The staged controller train_kd of src/train.py (lines 75 to 123): resolve
the checkpoint path, run stage 1 for epochs epochs, reload the model from the
best checkpoint (student.load_state_dict(best_student), line 103), unfreeze
all parameters and run stage 2 for the same epochs count, then perform the
final save torch.save(best_student.state_dict(), path_save_weight) (line 122)
and return best_student. -/
def train_kd (env : Env) (epochs : ℕ) (student : Model)
    (upd1 upd2 : List ℚ → List ℚ → List ℚ × List ℚ)
    (path_save_weight : Option String) (fs : FS) :
    Except PyErr (TorchObj × RunState × FS) :=
  match resolvePath path_save_weight student.className fs with
  | Except.error e => Except.error e
  | Except.ok pfs =>
      let s1 := train env epochs (stage1Init student upd1)
      match s1.student.load_state_dict s1.best with
      | Except.error e => Except.error e
      | Except.ok m1 =>
          let s2 := train env epochs (stage2State s1 m1 upd2)
          match s2.best.state_dict with
          | Except.error e => Except.error e
          | Except.ok d =>
              Except.ok (s2.best, { s2 with saves := s2.saves ++ [d] }, pfs.2)

end Train

namespace Teacher

/-- Scheduler of stage 1 of training, lines 90 to 91 of
src/distiller/teacher_train.py: ReduceLROnPlateau(optimizer, mode=max,
factor=0.5, patience=3). -/
def stage1SchedulerConfig : SchedulerConfig :=
  ⟨SchedMode.max, 1/2, 3⟩

/-- Scheduler of stage 2 of training, lines 115 to 116 of
src/distiller/teacher_train.py: ReduceLROnPlateau(optimizer, factor=0.5,
patience=2); mode is left at the torch default, min. -/
def stage2SchedulerConfig : SchedulerConfig :=
  ⟨SchedMode.min, 1/2, 2⟩

/-- One phase of the train function of src/distiller/teacher_train.py (lines
18 to 73).  The body matches the train.py runner except that the scheduler
metric is written 100 * epoch accuracy (line 58, the same rational value) and
the best-checkpoint variable stores a deep copy of the whole module,
best_teacher = copy.deepcopy(teacher) (line 70), rather than a state dict. -/
def runPhase (env : Env) (phase : Phase) (s : RunState) : RunState × ℚ × ℚ :=
  let m0 : Model := { s.student with trainingMode := phase.isTrain }
  let r : BatchAcc :=
    (env.phaseBatches phase).foldl (runBatch env phase) ⟨m0, s.optimizer, 0, 0⟩
  let epoch_loss : ℚ := r.running_loss / (env.phaseSize phase : ℚ)
  let epoch_acc : ℚ := (r.running_corrects : ℚ) / (env.phaseSize phase : ℚ)
  let sched1 : Scheduler :=
    if phase.isTrain then s.scheduler.step (100 * epoch_acc)
    else s.scheduler
  let improved : Bool := phase.isVal && decide (epoch_acc > s.best_acc)
  ({ student := r.m, optimizer := r.o, scheduler := sched1,
     best := if improved then TorchObj.mod r.m else s.best,
     best_acc := if improved then epoch_acc else s.best_acc,
     saves := if improved then s.saves ++ [r.m.state_dict] else s.saves },
   epoch_loss, epoch_acc)

/-- One epoch: a train phase followed by a validate phase. -/
def runEpoch (env : Env) (s : RunState) : RunState :=
  (runPhase env Phase.val (runPhase env Phase.train s).1).1

/-- The epoch-loop runner train of src/distiller/teacher_train.py. -/
def train (env : Env) : ℕ → RunState → RunState
  | 0, s => s
  | Nat.succ n, s => train env n (runEpoch env s)

/-- Default checkpoint path handling of training, lines 79 to 82 of
src/distiller/teacher_train.py; here the existence check is the usual one:
the directory is created exactly when it is missing. -/
def resolvePath (path_save_weight : Option String) (name : String) (fs : FS) :
    Except PyErr (String × FS) :=
  match path_save_weight with
  | some p => Except.ok (p, fs)
  | none =>
      if fs.weightsDirMade then Except.ok ("Weights/" ++ name ++ ".pth", fs)
      else
        match makedirs fs with
        | Except.error e => Except.error e
        | Except.ok fs2 => Except.ok ("Weights/" ++ name ++ ".pth", fs2)

/-- Initial stage-1 state of training (lines 86 to 95 of
src/distiller/teacher_train.py): Adam over the parameters of the last child
(the head), the stage-1 scheduler, best_teacher = copy.deepcopy(teacher),
best_acc = 0. -/
def stage1Init (teacher : Model) (upd1 : List ℚ → List ℚ → List ℚ × List ℚ) :
    RunState :=
  { student := teacher,
    optimizer := ⟨Scope.headOnly, [], upd1⟩,
    scheduler := ⟨stage1SchedulerConfig, []⟩,
    best := TorchObj.mod teacher,
    best_acc := 0,
    saves := [] }

/-- Stage-2 state of training (lines 107 to 116 of
src/distiller/teacher_train.py), from the stage-1 result and the reloaded
model m1: unfreeze all parameters, fresh optimizer over all of them, fresh
stage-2 scheduler, best state and write trace carried over. -/
def stage2State (s1 : RunState) (m1 : Model)
    (upd2 : List ℚ → List ℚ → List ℚ × List ℚ) : RunState :=
  { student := m1.unfreezeAll,
    optimizer := ⟨Scope.all, [], upd2⟩,
    scheduler := ⟨stage2SchedulerConfig, []⟩,
    best := s1.best,
    best_acc := s1.best_acc,
    saves := s1.saves }

/-- The staged controller training of src/distiller/teacher_train.py (lines
76 to 128): resolve the checkpoint path, run stage 1 for epochs_freeze
epochs, reload with teacher.load_state_dict(best_teacher) (line 107), run
stage 2 for epochs_unfreeze epochs, perform the final save
torch.save(best_teacher.state_dict(), path_save_weight) (line 123) and
return best_teacher. -/
def training (env : Env) (epochs_freeze epochs_unfreeze : ℕ) (teacher : Model)
    (upd1 upd2 : List ℚ → List ℚ → List ℚ × List ℚ)
    (path_save_weight : Option String) (fs : FS) :
    Except PyErr (TorchObj × RunState × FS) :=
  match resolvePath path_save_weight teacher.className fs with
  | Except.error e => Except.error e
  | Except.ok pfs =>
      let s1 := train env epochs_freeze (stage1Init teacher upd1)
      match s1.student.load_state_dict s1.best with
      | Except.error e => Except.error e
      | Except.ok m1 =>
          let s2 := train env epochs_unfreeze (stage2State s1 m1 upd2)
          match s2.best.state_dict with
          | Except.error e => Except.error e
          | Except.ok d =>
              Except.ok (s2.best, { s2 with saves := s2.saves ++ [d] }, pfs.2)

end Teacher

/-- Discriminator: does the best-checkpoint variable hold a state dict. -/
def TorchObj.isSd : TorchObj → Bool
  | TorchObj.sd _ => true
  | TorchObj.mod _ => false

/-- Discriminator: does the best-checkpoint variable hold a module. -/
def TorchObj.isMod : TorchObj → Bool
  | TorchObj.sd _ => false
  | TorchObj.mod _ => true

/-! Concrete inputs on which the embedding is evaluated.  These are test
data fed to the embedded program, not part of the program itself. -/

/-- A trivial optimizer update rule: keep state and values unchanged. -/
def idUpdate : List ℚ → List ℚ → List ℚ × List ℚ := fun st vs => (st, vs)

/-- A minimal model with no parameters. -/
def emptyModel : Model := ⟨[], [], false, "Net"⟩

/-- A trivial environment with empty loaders. -/
def emptyEnv : Env :=
  { forward := fun _ _ => [],
    criterion := fun _ _ => 0,
    loaders := ⟨[], []⟩,
    sizes := ⟨0, 0⟩ }

/-- Scenario model: a single head parameter acting as an epoch counter. -/
def scenarioModel : Model := ⟨[⟨0, true⟩], [], false, "Scenario"⟩

/-- Scenario optimizer update: add one to every owned parameter value, so
the counter equals the epoch number after each train phase (there is one
train batch per epoch). -/
def scenarioUpdate : List ℚ → List ℚ → List ℚ × List ℚ :=
  fun st vs => (st, vs.map (fun v => v + 1))

/-- Number of validation examples predicted correctly as a function of the
counter value: 5, 7, 6, 9 across the four epochs. -/
def scenarioK (c : ℚ) : ℚ :=
  if c = 1 then 5 else if c = 2 then 7 else if c = 3 then 6 else
  if c = 4 then 9 else 0

/-- Scenario forward pass: put example x into class 0 exactly when x lies
below the threshold determined by the counter parameter. -/
def scenarioForward (m : Model) (datas : List ℚ) : List (List ℚ) :=
  datas.map (fun x =>
    if x < scenarioK ((m.head.map Param.value).headD 0) then [1, 0] else [0, 1])

/-- Scenario environment: one train batch of one example and one validation
batch of ten examples all labelled 0, so the per-epoch validation accuracies
are 0.5, 0.7, 0.6, 0.9 in this order. -/
def scenarioEnv : Env :=
  { forward := scenarioForward,
    criterion := fun _ _ => 0,
    loaders := ⟨[⟨[0], [0]⟩],
                [⟨[0, 1, 2, 3, 4, 5, 6, 7, 8, 9], List.replicate 10 0⟩]⟩,
    sizes := ⟨1, 10⟩ }

/-- Scenario initial runner state, as stage 1 of train_kd builds it. -/
def scenarioInit : RunState := Train.stage1Init scenarioModel scenarioUpdate

/-- Scenario initial runner state for the teacher runner. -/
def scenarioInitT : RunState := Teacher.stage1Init scenarioModel scenarioUpdate

/-! Helper lemmas about the batch loop. -/

theorem runBatch_val_m (env : Env) (a : BatchAcc) (b : Batch) :
    (runBatch env Phase.val a b).m = a.m := rfl

theorem runBatch_val_o (env : Env) (a : BatchAcc) (b : Batch) :
    (runBatch env Phase.val a b).o = a.o := rfl

theorem runBatch_train_m (env : Env) (a : BatchAcc) (b : Batch) :
    (runBatch env Phase.train a b).m = (a.o.step a.m).2 := rfl

theorem runBatch_train_o (env : Env) (a : BatchAcc) (b : Batch) :
    (runBatch env Phase.train a b).o = (a.o.step a.m).1 := rfl

/-- In the validate phase the batch loop never touches the model or the
optimizer: the fold only accumulates metrics. -/
theorem foldl_val_preserve (env : Env) (bs : List Batch) (a : BatchAcc) :
    ((bs.foldl (runBatch env Phase.val) a).m = a.m
   ∧ (bs.foldl (runBatch env Phase.val) a).o = a.o) := by
  induction bs generalizing a with
  | nil => exact ⟨rfl, rfl⟩
  | cons b bs ih =>
      rw [List.foldl_cons]
      exact ⟨(ih (runBatch env Phase.val a b)).1,
             (ih (runBatch env Phase.val a b)).2⟩

/-- The step method keeps the parameter-group scope of the optimizer. -/
theorem step_scope (o : Optimizer) (m : Model) :
    (o.step m).1.scope = o.scope := by
  cases h : o.scope <;> simp [Optimizer.step, h]

/-- The step method of an optimizer scoped to the head parameters leaves
every backbone parameter (value and flag) untouched. -/
theorem step_headOnly_backbone (o : Optimizer) (m : Model)
    (h : o.scope = Scope.headOnly) :
    (o.step m).2.backbone = m.backbone := by
  simp [Optimizer.step, h]

/-- Frame property of the train-phase batch loop under a head-scoped
optimizer: backbone parameters and the optimizer scope are preserved. -/
theorem foldl_train_headOnly_frame (env : Env) (bs : List Batch) (a : BatchAcc)
    (h : a.o.scope = Scope.headOnly) :
    ((bs.foldl (runBatch env Phase.train) a).m.backbone = a.m.backbone
   ∧ (bs.foldl (runBatch env Phase.train) a).o.scope = Scope.headOnly) := by
  induction bs generalizing a with
  | nil => exact ⟨rfl, h⟩
  | cons b bs ih =>
      rw [List.foldl_cons]
      have hs : (runBatch env Phase.train a b).o.scope = Scope.headOnly := by
        rw [runBatch_train_o, step_scope]; exact h
      have hb : (runBatch env Phase.train a b).m.backbone = a.m.backbone := by
        rw [runBatch_train_m, step_headOnly_backbone a.o a.m h]
      exact ⟨((ih _ hs).1).trans hb, (ih _ hs).2⟩

/-! Phase-level lemmas for the runner of src/train.py. -/

theorem trainRunPhase_train_best (env : Env) (s : RunState) :
    (Train.runPhase env Phase.train s).1.best = s.best := rfl

theorem trainRunPhase_train_best_acc (env : Env) (s : RunState) :
    (Train.runPhase env Phase.train s).1.best_acc = s.best_acc := rfl

theorem trainRunPhase_train_saves (env : Env) (s : RunState) :
    (Train.runPhase env Phase.train s).1.saves = s.saves := rfl

theorem trainRunPhase_val_scheduler (env : Env) (s : RunState) :
    (Train.runPhase env Phase.val s).1.scheduler = s.scheduler := rfl

theorem trainRunPhase_val_student (env : Env) (s : RunState) :
    (Train.runPhase env Phase.val s).1.student =
      { s.student with trainingMode := false } :=
  (foldl_val_preserve env (env.phaseBatches Phase.val)
    ⟨{ s.student with trainingMode := false }, s.optimizer, 0, 0⟩).1

theorem trainRunPhase_val_optimizer (env : Env) (s : RunState) :
    (Train.runPhase env Phase.val s).1.optimizer = s.optimizer :=
  (foldl_val_preserve env (env.phaseBatches Phase.val)
    ⟨{ s.student with trainingMode := false }, s.optimizer, 0, 0⟩).2

theorem trainRunPhase_val_best_acc (env : Env) (s : RunState) :
    (Train.runPhase env Phase.val s).1.best_acc =
      (if (Train.runPhase env Phase.val s).2.2 > s.best_acc
       then (Train.runPhase env Phase.val s).2.2 else s.best_acc) := by
  show (if (Phase.val.isVal
            && decide ((Train.runPhase env Phase.val s).2.2 > s.best_acc)) = true
        then (Train.runPhase env Phase.val s).2.2 else s.best_acc) = _
  simp [Phase.isVal]

theorem trainRunPhase_val_best (env : Env) (s : RunState) :
    (Train.runPhase env Phase.val s).1.best =
      (if (Train.runPhase env Phase.val s).2.2 > s.best_acc
       then TorchObj.sd (Train.runPhase env Phase.val s).1.student.state_dict
       else s.best) := by
  show (if (Phase.val.isVal
            && decide ((Train.runPhase env Phase.val s).2.2 > s.best_acc)) = true
        then TorchObj.sd (Train.runPhase env Phase.val s).1.student.state_dict
        else s.best) = _
  simp [Phase.isVal]

theorem trainRunPhase_val_saves (env : Env) (s : RunState) :
    (Train.runPhase env Phase.val s).1.saves =
      (if (Train.runPhase env Phase.val s).2.2 > s.best_acc
       then s.saves ++ [(Train.runPhase env Phase.val s).1.student.state_dict]
       else s.saves) := by
  show (if (Phase.val.isVal
            && decide ((Train.runPhase env Phase.val s).2.2 > s.best_acc)) = true
        then s.saves ++ [(Train.runPhase env Phase.val s).1.student.state_dict]
        else s.saves) = _
  simp [Phase.isVal]

theorem trainRunPhase_train_scheduler (env : Env) (s : RunState) :
    (Train.runPhase env Phase.train s).1.scheduler =
      s.scheduler.step
        (100 * (((env.phaseBatches Phase.train).foldl (runBatch env Phase.train)
            ⟨{ s.student with trainingMode := true }, s.optimizer, 0, 0⟩).running_corrects : ℚ)
          / (env.sizes.trainSize : ℚ)) := rfl

theorem trainRunPhase_train_acc (env : Env) (s : RunState) :
    (Train.runPhase env Phase.train s).2.2 =
      (((env.phaseBatches Phase.train).foldl (runBatch env Phase.train)
          ⟨{ s.student with trainingMode := true }, s.optimizer, 0, 0⟩).running_corrects : ℚ)
        / (env.sizes.trainSize : ℚ) := rfl

/-- The train phase appends exactly one metric to the scheduler trace: the
train-phase epoch accuracy on the percentage scale. -/
theorem trainRunPhase_train_metrics (env : Env) (s : RunState) :
    (Train.runPhase env Phase.train s).1.scheduler.metrics =
      s.scheduler.metrics ++ [100 * (Train.runPhase env Phase.train s).2.2] := by
  rw [trainRunPhase_train_scheduler, trainRunPhase_train_acc, Scheduler.step,
    mul_div_assoc]

/-! Phase-level lemmas for the runner of src/distiller/teacher_train.py. -/

theorem teacherRunPhase_train_best (env : Env) (s : RunState) :
    (Teacher.runPhase env Phase.train s).1.best = s.best := rfl

theorem teacherRunPhase_train_best_acc (env : Env) (s : RunState) :
    (Teacher.runPhase env Phase.train s).1.best_acc = s.best_acc := rfl

theorem teacherRunPhase_train_saves (env : Env) (s : RunState) :
    (Teacher.runPhase env Phase.train s).1.saves = s.saves := rfl

theorem teacherRunPhase_val_scheduler (env : Env) (s : RunState) :
    (Teacher.runPhase env Phase.val s).1.scheduler = s.scheduler := rfl

theorem teacherRunPhase_val_student (env : Env) (s : RunState) :
    (Teacher.runPhase env Phase.val s).1.student =
      { s.student with trainingMode := false } :=
  (foldl_val_preserve env (env.phaseBatches Phase.val)
    ⟨{ s.student with trainingMode := false }, s.optimizer, 0, 0⟩).1

theorem teacherRunPhase_val_optimizer (env : Env) (s : RunState) :
    (Teacher.runPhase env Phase.val s).1.optimizer = s.optimizer :=
  (foldl_val_preserve env (env.phaseBatches Phase.val)
    ⟨{ s.student with trainingMode := false }, s.optimizer, 0, 0⟩).2

theorem teacherRunPhase_val_best_acc (env : Env) (s : RunState) :
    (Teacher.runPhase env Phase.val s).1.best_acc =
      (if (Teacher.runPhase env Phase.val s).2.2 > s.best_acc
       then (Teacher.runPhase env Phase.val s).2.2 else s.best_acc) := by
  show (if (Phase.val.isVal
            && decide ((Teacher.runPhase env Phase.val s).2.2 > s.best_acc)) = true
        then (Teacher.runPhase env Phase.val s).2.2 else s.best_acc) = _
  simp [Phase.isVal]

theorem teacherRunPhase_val_best (env : Env) (s : RunState) :
    (Teacher.runPhase env Phase.val s).1.best =
      (if (Teacher.runPhase env Phase.val s).2.2 > s.best_acc
       then TorchObj.mod (Teacher.runPhase env Phase.val s).1.student
       else s.best) := by
  show (if (Phase.val.isVal
            && decide ((Teacher.runPhase env Phase.val s).2.2 > s.best_acc)) = true
        then TorchObj.mod (Teacher.runPhase env Phase.val s).1.student
        else s.best) = _
  simp [Phase.isVal]

theorem teacherRunPhase_val_saves (env : Env) (s : RunState) :
    (Teacher.runPhase env Phase.val s).1.saves =
      (if (Teacher.runPhase env Phase.val s).2.2 > s.best_acc
       then s.saves ++ [(Teacher.runPhase env Phase.val s).1.student.state_dict]
       else s.saves) := by
  show (if (Phase.val.isVal
            && decide ((Teacher.runPhase env Phase.val s).2.2 > s.best_acc)) = true
        then s.saves ++ [(Teacher.runPhase env Phase.val s).1.student.state_dict]
        else s.saves) = _
  simp [Phase.isVal]

/-- The teacher train phase appends exactly one metric to the scheduler
trace: 100 times the train-phase epoch accuracy, as on line 58. -/
theorem teacherRunPhase_train_metrics (env : Env) (s : RunState) :
    (Teacher.runPhase env Phase.train s).1.scheduler.metrics =
      s.scheduler.metrics ++ [100 * (Teacher.runPhase env Phase.train s).2.2] := rfl

theorem trainRunPhase_train_student (env : Env) (s : RunState) :
    (Train.runPhase env Phase.train s).1.student =
      ((env.phaseBatches Phase.train).foldl (runBatch env Phase.train)
        ⟨{ s.student with trainingMode := true }, s.optimizer, 0, 0⟩).m := rfl

theorem trainRunPhase_train_optimizer (env : Env) (s : RunState) :
    (Train.runPhase env Phase.train s).1.optimizer =
      ((env.phaseBatches Phase.train).foldl (runBatch env Phase.train)
        ⟨{ s.student with trainingMode := true }, s.optimizer, 0, 0⟩).o := rfl

theorem teacherRunPhase_train_student (env : Env) (s : RunState) :
    (Teacher.runPhase env Phase.train s).1.student =
      ((env.phaseBatches Phase.train).foldl (runBatch env Phase.train)
        ⟨{ s.student with trainingMode := true }, s.optimizer, 0, 0⟩).m := rfl

theorem teacherRunPhase_train_optimizer (env : Env) (s : RunState) :
    (Teacher.runPhase env Phase.train s).1.optimizer =
      ((env.phaseBatches Phase.train).foldl (runBatch env Phase.train)
        ⟨{ s.student with trainingMode := true }, s.optimizer, 0, 0⟩).o := rfl

/-! Epoch- and loop-level lemmas, src/train.py runner. -/

theorem trainRunEpoch_mono (env : Env) (s : RunState) :
    s.best_acc ≤ (Train.runEpoch env s).best_acc := by
  unfold Train.runEpoch
  rw [trainRunPhase_val_best_acc, trainRunPhase_train_best_acc]
  by_cases h :
    (Train.runPhase env Phase.val (Train.runPhase env Phase.train s).1).2.2
      > s.best_acc
  · rw [if_pos h]; exact le_of_lt h
  · rw [if_neg h]

theorem trainLoop_mono (env : Env) (n : ℕ) (s : RunState) :
    s.best_acc ≤ (Train.train env n s).best_acc := by
  induction n generalizing s with
  | zero => exact le_rfl
  | succ n ih =>
      exact le_trans (trainRunEpoch_mono env s) (ih (Train.runEpoch env s))

theorem trainRunEpoch_sched_len (env : Env) (s : RunState) :
    (Train.runEpoch env s).scheduler.metrics.length
      = s.scheduler.metrics.length + 1 := by
  unfold Train.runEpoch
  rw [trainRunPhase_val_scheduler, trainRunPhase_train_metrics]
  simp

theorem trainLoop_sched_len (env : Env) (n : ℕ) (s : RunState) :
    (Train.train env n s).scheduler.metrics.length
      = s.scheduler.metrics.length + n := by
  induction n generalizing s with
  | zero => rfl
  | succ n ih =>
      have h1 := trainRunEpoch_sched_len env s
      have h2 := ih (Train.runEpoch env s)
      show (Train.train env n (Train.runEpoch env s)).scheduler.metrics.length
        = s.scheduler.metrics.length + (n + 1)
      rw [h2, h1]; omega

theorem trainRunEpoch_sched_config (env : Env) (s : RunState) :
    (Train.runEpoch env s).scheduler.config = s.scheduler.config := by
  unfold Train.runEpoch
  rw [trainRunPhase_val_scheduler, trainRunPhase_train_scheduler]
  rfl

theorem trainLoop_sched_config (env : Env) (n : ℕ) (s : RunState) :
    (Train.train env n s).scheduler.config = s.scheduler.config := by
  induction n generalizing s with
  | zero => rfl
  | succ n ih =>
      exact (ih (Train.runEpoch env s)).trans (trainRunEpoch_sched_config env s)

theorem trainRunEpoch_frame (env : Env) (s : RunState)
    (h : s.optimizer.scope = Scope.headOnly) :
    (Train.runEpoch env s).student.backbone = s.student.backbone
  ∧ (Train.runEpoch env s).optimizer.scope = Scope.headOnly := by
  have hf := foldl_train_headOnly_frame env (env.phaseBatches Phase.train)
      ⟨{ s.student with trainingMode := true }, s.optimizer, 0, 0⟩ h
  unfold Train.runEpoch
  rw [trainRunPhase_val_student, trainRunPhase_val_optimizer]
  exact ⟨hf.1, hf.2⟩

theorem trainLoop_frame (env : Env) (n : ℕ) (s : RunState)
    (h : s.optimizer.scope = Scope.headOnly) :
    (Train.train env n s).student.backbone = s.student.backbone
  ∧ (Train.train env n s).optimizer.scope = Scope.headOnly := by
  induction n generalizing s with
  | zero => exact ⟨rfl, h⟩
  | succ n ih =>
      obtain ⟨h1, h2⟩ := trainRunEpoch_frame env s h
      obtain ⟨h3, h4⟩ := ih (Train.runEpoch env s) h2
      exact ⟨h3.trans h1, h4⟩

theorem trainRunEpoch_isSd (env : Env) (s : RunState)
    (h : s.best.isSd = true) : (Train.runEpoch env s).best.isSd = true := by
  unfold Train.runEpoch
  rw [trainRunPhase_val_best]
  split
  · rfl
  · rw [trainRunPhase_train_best]; exact h

theorem trainLoop_isSd (env : Env) (n : ℕ) (s : RunState)
    (h : s.best.isSd = true) : (Train.train env n s).best.isSd = true := by
  induction n generalizing s with
  | zero => exact h
  | succ n ih => exact ih (Train.runEpoch env s) (trainRunEpoch_isSd env s h)

/-! Epoch- and loop-level lemmas, src/distiller/teacher_train.py runner. -/

theorem teacherRunEpoch_mono (env : Env) (s : RunState) :
    s.best_acc ≤ (Teacher.runEpoch env s).best_acc := by
  unfold Teacher.runEpoch
  rw [teacherRunPhase_val_best_acc, teacherRunPhase_train_best_acc]
  by_cases h :
    (Teacher.runPhase env Phase.val (Teacher.runPhase env Phase.train s).1).2.2
      > s.best_acc
  · rw [if_pos h]; exact le_of_lt h
  · rw [if_neg h]

theorem teacherLoop_mono (env : Env) (n : ℕ) (s : RunState) :
    s.best_acc ≤ (Teacher.train env n s).best_acc := by
  induction n generalizing s with
  | zero => exact le_rfl
  | succ n ih =>
      exact le_trans (teacherRunEpoch_mono env s) (ih (Teacher.runEpoch env s))

theorem teacherRunEpoch_sched_len (env : Env) (s : RunState) :
    (Teacher.runEpoch env s).scheduler.metrics.length
      = s.scheduler.metrics.length + 1 := by
  unfold Teacher.runEpoch
  rw [teacherRunPhase_val_scheduler, teacherRunPhase_train_metrics]
  simp

theorem teacherLoop_sched_len (env : Env) (n : ℕ) (s : RunState) :
    (Teacher.train env n s).scheduler.metrics.length
      = s.scheduler.metrics.length + n := by
  induction n generalizing s with
  | zero => rfl
  | succ n ih =>
      have h1 := teacherRunEpoch_sched_len env s
      have h2 := ih (Teacher.runEpoch env s)
      show (Teacher.train env n (Teacher.runEpoch env s)).scheduler.metrics.length
        = s.scheduler.metrics.length + (n + 1)
      rw [h2, h1]; omega

theorem teacherRunEpoch_sched_config (env : Env) (s : RunState) :
    (Teacher.runEpoch env s).scheduler.config = s.scheduler.config := by
  unfold Teacher.runEpoch
  rw [teacherRunPhase_val_scheduler]
  rfl

theorem teacherLoop_sched_config (env : Env) (n : ℕ) (s : RunState) :
    (Teacher.train env n s).scheduler.config = s.scheduler.config := by
  induction n generalizing s with
  | zero => rfl
  | succ n ih =>
      exact (ih (Teacher.runEpoch env s)).trans (teacherRunEpoch_sched_config env s)

theorem teacherRunEpoch_frame (env : Env) (s : RunState)
    (h : s.optimizer.scope = Scope.headOnly) :
    (Teacher.runEpoch env s).student.backbone = s.student.backbone
  ∧ (Teacher.runEpoch env s).optimizer.scope = Scope.headOnly := by
  have hf := foldl_train_headOnly_frame env (env.phaseBatches Phase.train)
      ⟨{ s.student with trainingMode := true }, s.optimizer, 0, 0⟩ h
  unfold Teacher.runEpoch
  rw [teacherRunPhase_val_student, teacherRunPhase_val_optimizer]
  exact ⟨hf.1, hf.2⟩

theorem teacherLoop_frame (env : Env) (n : ℕ) (s : RunState)
    (h : s.optimizer.scope = Scope.headOnly) :
    (Teacher.train env n s).student.backbone = s.student.backbone
  ∧ (Teacher.train env n s).optimizer.scope = Scope.headOnly := by
  induction n generalizing s with
  | zero => exact ⟨rfl, h⟩
  | succ n ih =>
      obtain ⟨h1, h2⟩ := teacherRunEpoch_frame env s h
      obtain ⟨h3, h4⟩ := ih (Teacher.runEpoch env s) h2
      exact ⟨h3.trans h1, h4⟩

theorem teacherRunEpoch_isMod (env : Env) (s : RunState)
    (h : s.best.isMod = true) : (Teacher.runEpoch env s).best.isMod = true := by
  unfold Teacher.runEpoch
  rw [teacherRunPhase_val_best]
  split
  · rfl
  · rw [teacherRunPhase_train_best]; exact h

theorem teacherLoop_isMod (env : Env) (n : ℕ) (s : RunState)
    (h : s.best.isMod = true) : (Teacher.train env n s).best.isMod = true := by
  induction n generalizing s with
  | zero => exact h
  | succ n ih =>
      exact ih (Teacher.runEpoch env s) (teacherRunEpoch_isMod env s h)

/-- Mapping a flag-setting function over a parameter list yields a constant
flag list. -/
theorem map_flag_const {f : Param → Param} {c : Bool}
    (h : ∀ p, (f p).requires_grad = c) (l : List Param) :
    (l.map f).map Param.requires_grad = List.replicate l.length c := by
  induction l with
  | nil => rfl
  | cons p l ih => simp [List.replicate_succ, ih, h p]

/-! Lemmas about the checkpoint-object operations. -/

theorem torchObj_state_dict_of_isSd (x : TorchObj) (h : x.isSd = true) :
    x.state_dict = Except.error PyErr.attributeError := by
  cases x with
  | sd d => rfl
  | mod m => simp [TorchObj.isSd] at h

theorem load_state_dict_of_sd (m : Model) (d : StateDict) :
    m.load_state_dict (TorchObj.sd d) =
      Except.ok { m with head := loadValues m.head d.headVals,
                         backbone := loadValues m.backbone d.backboneVals } := rfl

theorem load_state_dict_of_isMod (m : Model) (x : TorchObj)
    (h : x.isMod = true) :
    m.load_state_dict x = Except.error PyErr.typeError := by
  cases x with
  | sd d => simp [TorchObj.isMod] at h
  | mod m2 => rfl

theorem trainStage1_best_sd (env : Env) (e : ℕ) (student : Model)
    (upd1 : List ℚ → List ℚ → List ℚ × List ℚ) :
    ∃ d, (Train.train env e (Train.stage1Init student upd1)).best
          = TorchObj.sd d := by
  have h1 : (Train.train env e (Train.stage1Init student upd1)).best.isSd = true :=
    trainLoop_isSd env e (Train.stage1Init student upd1) rfl
  cases hb : (Train.train env e (Train.stage1Init student upd1)).best with
  | mod m => rw [hb] at h1; simp [TorchObj.isSd] at h1
  | sd d => exact ⟨d, rfl⟩

theorem teacherResolvePath_ok (path : Option String) (name : String) (fs : FS) :
    ∃ p2 fs2, Teacher.resolvePath path name fs = Except.ok (p2, fs2) := by
  cases path with
  | some p => exact ⟨p, fs, rfl⟩
  | none =>
      obtain ⟨b⟩ := fs
      cases b with
      | true => exact ⟨"Weights/" ++ name ++ ".pth", ⟨true⟩, rfl⟩
      | false => exact ⟨"Weights/" ++ name ++ ".pth", ⟨true⟩, rfl⟩

theorem trainRunPhase_val_metrics_expr (env : Env) (s : RunState) :
    (Train.runPhase env Phase.val s).2 =
      ((((env.phaseBatches Phase.val).foldl (runBatch env Phase.val)
          ⟨{ s.student with trainingMode := false }, s.optimizer, 0, 0⟩).running_loss)
         / (env.sizes.valSize : ℚ),
       (((env.phaseBatches Phase.val).foldl (runBatch env Phase.val)
          ⟨{ s.student with trainingMode := false }, s.optimizer, 0, 0⟩).running_corrects : ℚ)
         / (env.sizes.valSize : ℚ)) := rfl

theorem teacherRunPhase_val_metrics_expr (env : Env) (s : RunState) :
    (Teacher.runPhase env Phase.val s).2 =
      ((((env.phaseBatches Phase.val).foldl (runBatch env Phase.val)
          ⟨{ s.student with trainingMode := false }, s.optimizer, 0, 0⟩).running_loss)
         / (env.sizes.valSize : ℚ),
       (((env.phaseBatches Phase.val).foldl (runBatch env Phase.val)
          ⟨{ s.student with trainingMode := false }, s.optimizer, 0, 0⟩).running_corrects : ℚ)
         / (env.sizes.valSize : ℚ)) := rfl

/-- Running the validate phase of the train.py runner a second time computes
its metrics from the same model values and the same optimizer, hence from
the identical fold. -/
theorem trainValMetrics_idem (env : Env) (s : RunState) :
    (Train.runPhase env Phase.val (Train.runPhase env Phase.val s).1).2
      = (Train.runPhase env Phase.val s).2 := by
  rw [trainRunPhase_val_metrics_expr env ((Train.runPhase env Phase.val s).1),
    trainRunPhase_val_student, trainRunPhase_val_optimizer,
    trainRunPhase_val_metrics_expr env s]

/-- Running the validate phase of the teacher runner a second time computes
its metrics from the same model values and the same optimizer. -/
theorem teacherValMetrics_idem (env : Env) (s : RunState) :
    (Teacher.runPhase env Phase.val (Teacher.runPhase env Phase.val s).1).2
      = (Teacher.runPhase env Phase.val s).2 := by
  rw [teacherRunPhase_val_metrics_expr env ((Teacher.runPhase env Phase.val s).1),
    teacherRunPhase_val_student, teacherRunPhase_val_optimizer,
    teacherRunPhase_val_metrics_expr env s]

/-! Claim theorems. -/

/-- C1: the claim says the final step of both controllers writes the overall
best checkpoint once more and returns the best state, completing normally.
The code of train_kd contradicts this: best_student always holds a state
dict, and line 122 of src/train.py calls best_student.state_dict() on it,
which raises AttributeError, so for every invocation in which both runner
invocations complete the controller aborts at its final step instead of
completing normally.  (The teacher controller would perform its final save
correctly, but it aborts earlier at its reload step, see C2.) -/
theorem train_kd_final_save_attribute_error (env : Env) (epochs : ℕ)
    (student : Model) (upd1 upd2 : List ℚ → List ℚ → List ℚ × List ℚ)
    (p : String) (fs : FS) :
    Train.train_kd env epochs student upd1 upd2 (some p) fs
      = Except.error PyErr.attributeError := by
  obtain ⟨d, hd⟩ := trainStage1_best_sd env epochs student upd1
  simp only [Train.train_kd, Train.resolvePath]
  rw [hd, load_state_dict_of_sd]
  dsimp only
  rw [torchObj_state_dict_of_isSd]
  exact trainLoop_isSd env epochs _
    (show (Train.train env epochs (Train.stage1Init student upd1)).best.isSd
        = true by rw [hd]; rfl)

/-- C2: the claim says the controller reloads the live model from the
stage-1 best checkpoint and that this reload completes normally.  In
src/distiller/teacher_train.py the best-checkpoint variable holds a deep
copy of the whole module, and line 107 passes that module to
teacher.load_state_dict, which requires a state-dict mapping and raises
TypeError; so every invocation of training aborts at the stage transition
and stage 2 is never reached.  (The train.py controller performs this
reload correctly, since its best variable holds a state dict.) -/
theorem training_reload_type_error (env : Env) (ef eu : ℕ) (teacher : Model)
    (upd1 upd2 : List ℚ → List ℚ → List ℚ × List ℚ)
    (path : Option String) (fs : FS) :
    Teacher.training env ef eu teacher upd1 upd2 path fs
      = Except.error PyErr.typeError := by
  obtain ⟨p2, fs2, hres⟩ := teacherResolvePath_ok path teacher.className fs
  have h1 : (Teacher.train env ef (Teacher.stage1Init teacher upd1)).best.isMod
      = true :=
    teacherLoop_isMod env ef (Teacher.stage1Init teacher upd1) rfl
  simp only [Teacher.training]
  rw [hres, load_state_dict_of_isMod _ _ h1]

/-- C3: in both epoch-loop runners the best state is reassigned and one
checkpoint write appended exactly when a validate-phase epoch accuracy
strictly exceeds the current best (the train phase never touches them), and
on the scenario with validation accuracy sequence 0.5, 0.7, 0.6, 0.9 the
best accuracy tracks 0.5, 0.7, 0.7, 0.9 across the four epoch prefixes,
skipping the 0.6 regression, with exactly 3 storage writes (1, 2, 2, 3 after
each prefix). -/
theorem best_state_strict_improvement :
    (∀ (env : Env) (s : RunState),
        (Train.runPhase env Phase.train s).1.best = s.best
      ∧ (Train.runPhase env Phase.train s).1.best_acc = s.best_acc
      ∧ (Train.runPhase env Phase.train s).1.saves = s.saves
      ∧ (Train.runPhase env Phase.val s).1.best_acc =
          (if (Train.runPhase env Phase.val s).2.2 > s.best_acc
           then (Train.runPhase env Phase.val s).2.2 else s.best_acc)
      ∧ (Train.runPhase env Phase.val s).1.best =
          (if (Train.runPhase env Phase.val s).2.2 > s.best_acc
           then TorchObj.sd (Train.runPhase env Phase.val s).1.student.state_dict
           else s.best)
      ∧ (Train.runPhase env Phase.val s).1.saves =
          (if (Train.runPhase env Phase.val s).2.2 > s.best_acc
           then s.saves ++ [(Train.runPhase env Phase.val s).1.student.state_dict]
           else s.saves))
  ∧ (∀ (env : Env) (s : RunState),
        (Teacher.runPhase env Phase.train s).1.best = s.best
      ∧ (Teacher.runPhase env Phase.train s).1.best_acc = s.best_acc
      ∧ (Teacher.runPhase env Phase.train s).1.saves = s.saves
      ∧ (Teacher.runPhase env Phase.val s).1.best_acc =
          (if (Teacher.runPhase env Phase.val s).2.2 > s.best_acc
           then (Teacher.runPhase env Phase.val s).2.2 else s.best_acc)
      ∧ (Teacher.runPhase env Phase.val s).1.best =
          (if (Teacher.runPhase env Phase.val s).2.2 > s.best_acc
           then TorchObj.mod (Teacher.runPhase env Phase.val s).1.student
           else s.best)
      ∧ (Teacher.runPhase env Phase.val s).1.saves =
          (if (Teacher.runPhase env Phase.val s).2.2 > s.best_acc
           then s.saves ++ [(Teacher.runPhase env Phase.val s).1.student.state_dict]
           else s.saves))
  ∧ ((Train.train scenarioEnv 1 scenarioInit).best_acc = 1/2
   ∧ (Train.train scenarioEnv 2 scenarioInit).best_acc = 7/10
   ∧ (Train.train scenarioEnv 3 scenarioInit).best_acc = 7/10
   ∧ (Train.train scenarioEnv 4 scenarioInit).best_acc = 9/10)
  ∧ ((Train.train scenarioEnv 1 scenarioInit).saves.length = 1
   ∧ (Train.train scenarioEnv 2 scenarioInit).saves.length = 2
   ∧ (Train.train scenarioEnv 3 scenarioInit).saves.length = 2
   ∧ (Train.train scenarioEnv 4 scenarioInit).saves.length = 3)
  ∧ ((Teacher.train scenarioEnv 4 scenarioInitT).best_acc = 9/10
   ∧ (Teacher.train scenarioEnv 4 scenarioInitT).saves.length = 3) := by
  refine ⟨?_, ?_, ?_, ?_, ?_⟩
  · intro env s
    exact ⟨rfl, rfl, rfl, trainRunPhase_val_best_acc env s,
      trainRunPhase_val_best env s, trainRunPhase_val_saves env s⟩
  · intro env s
    exact ⟨rfl, rfl, rfl, teacherRunPhase_val_best_acc env s,
      teacherRunPhase_val_best env s, teacherRunPhase_val_saves env s⟩
  all_goals
    norm_num [Train.train, Train.runEpoch, Train.runPhase,
      Teacher.train, Teacher.runEpoch, Teacher.runPhase, runBatch,
      Optimizer.step, Scheduler.step, scenarioEnv, scenarioInit, scenarioInitT,
      Train.stage1Init, Teacher.stage1Init, scenarioModel, scenarioUpdate,
      scenarioForward, scenarioK, argmaxIdx, countCorrects, loadValues,
      Env.phaseBatches, Env.phaseSize, Phase.isTrain, Phase.isVal,
      Model.state_dict, List.enum, List.enumFrom, List.replicate]

/-- C4: both epoch-loop runners return a best accuracy at least the one they
were passed; the stage-2 state of each controller is seeded with exactly the
best state (best accuracy and best checkpoint) returned by stage 1; stage 1
starts from best accuracy 0; and consequently the best accuracy of the full
two-stage run of train_kd is monotonically non-decreasing:
0 at start, then the stage-1 result, then the stage-2 result. -/
theorem best_acc_monotone_two_stage :
    (∀ (env : Env) (n : ℕ) (s : RunState),
        s.best_acc ≤ (Train.train env n s).best_acc)
  ∧ (∀ (env : Env) (n : ℕ) (s : RunState),
        s.best_acc ≤ (Teacher.train env n s).best_acc)
  ∧ (∀ (s1 : RunState) (m1 : Model) (upd2 : List ℚ → List ℚ → List ℚ × List ℚ),
        (Train.stage2State s1 m1 upd2).best_acc = s1.best_acc
      ∧ (Train.stage2State s1 m1 upd2).best = s1.best
      ∧ (Teacher.stage2State s1 m1 upd2).best_acc = s1.best_acc
      ∧ (Teacher.stage2State s1 m1 upd2).best = s1.best)
  ∧ (∀ (m : Model) (upd1 : List ℚ → List ℚ → List ℚ × List ℚ),
        (Train.stage1Init m upd1).best_acc = 0
      ∧ (Teacher.stage1Init m upd1).best_acc = 0)
  ∧ (∀ (env : Env) (e : ℕ) (student m1 : Model)
        (upd1 upd2 : List ℚ → List ℚ → List ℚ × List ℚ),
        (0 : ℚ) ≤ (Train.train env e (Train.stage1Init student upd1)).best_acc
      ∧ (Train.train env e (Train.stage1Init student upd1)).best_acc
          ≤ (Train.train env e (Train.stage2State
              (Train.train env e (Train.stage1Init student upd1)) m1 upd2)).best_acc) := by
  refine ⟨trainLoop_mono, teacherLoop_mono,
    fun s1 m1 upd2 => ⟨rfl, rfl, rfl, rfl⟩,
    fun m upd1 => ⟨rfl, rfl⟩, ?_⟩
  intro env e student m1 upd1 upd2
  constructor
  · exact trainLoop_mono env e (Train.stage1Init student upd1)
  · exact trainLoop_mono env e
      (Train.stage2State (Train.train env e (Train.stage1Init student upd1)) m1 upd2)

/-- C5: with the stage-1 freezing applied (head trainable, backbone frozen;
modelled from the spec since the marking itself is outside src/), stage 1 of
both controllers scopes its optimizer to the head parameters only, and the
whole stage-1 runner invocation leaves every backbone parameter, value and
flag alike, unchanged. -/
theorem stage1_backbone_frozen_unchanged (env : Env) (e : ℕ) (m : Model)
    (upd1 : List ℚ → List ℚ → List ℚ × List ℚ) :
    ((freezeBackbone m).head.map Param.requires_grad
        = List.replicate m.head.length true)
  ∧ ((freezeBackbone m).backbone.map Param.requires_grad
        = List.replicate m.backbone.length false)
  ∧ (Train.stage1Init (freezeBackbone m) upd1).optimizer.scope = Scope.headOnly
  ∧ (Train.train env e (Train.stage1Init (freezeBackbone m) upd1)).student.backbone
        = (freezeBackbone m).backbone
  ∧ (Teacher.stage1Init (freezeBackbone m) upd1).optimizer.scope = Scope.headOnly
  ∧ (Teacher.train env e (Teacher.stage1Init (freezeBackbone m) upd1)).student.backbone
        = (freezeBackbone m).backbone := by
  refine ⟨?_, ?_, rfl, ?_, rfl, ?_⟩
  · exact map_flag_const (f := fun p => { p with requires_grad := true })
      (c := true) (fun p => rfl) m.head
  · exact map_flag_const (f := fun p => { p with requires_grad := false })
      (c := false) (fun p => rfl) m.backbone
  · exact (trainLoop_frame env e (Train.stage1Init (freezeBackbone m) upd1) rfl).1
  · exact (teacherLoop_frame env e (Teacher.stage1Init (freezeBackbone m) upd1) rfl).1

/-- C6: in every epoch of both runners the scheduler is advanced exactly
once, during the train phase, with the train-phase epoch accuracy on the
percentage scale (100 times running corrects over the train example count);
the validate phase leaves the scheduler untouched, and over n epochs the
scheduler receives exactly n step calls. -/
theorem scheduler_step_once_per_epoch :
    (∀ (env : Env) (s : RunState),
        (Train.runPhase env Phase.train s).1.scheduler.metrics
          = s.scheduler.metrics ++ [100 * (Train.runPhase env Phase.train s).2.2]
      ∧ (Train.runPhase env Phase.train s).2.2
          = (((env.phaseBatches Phase.train).foldl (runBatch env Phase.train)
              ⟨{ s.student with trainingMode := true }, s.optimizer, 0, 0⟩).running_corrects : ℚ)
            / (env.sizes.trainSize : ℚ)
      ∧ (Train.runPhase env Phase.val s).1.scheduler = s.scheduler)
  ∧ (∀ (env : Env) (n : ℕ) (s : RunState),
        (Train.train env n s).scheduler.metrics.length
          = s.scheduler.metrics.length + n)
  ∧ (∀ (env : Env) (s : RunState),
        (Teacher.runPhase env Phase.train s).1.scheduler.metrics
          = s.scheduler.metrics ++ [100 * (Teacher.runPhase env Phase.train s).2.2]
      ∧ (Teacher.runPhase env Phase.train s).2.2
          = (((env.phaseBatches Phase.train).foldl (runBatch env Phase.train)
              ⟨{ s.student with trainingMode := true }, s.optimizer, 0, 0⟩).running_corrects : ℚ)
            / (env.sizes.trainSize : ℚ)
      ∧ (Teacher.runPhase env Phase.val s).1.scheduler = s.scheduler)
  ∧ (∀ (env : Env) (n : ℕ) (s : RunState),
        (Teacher.train env n s).scheduler.metrics.length
          = s.scheduler.metrics.length + n) := by
  refine ⟨fun env s => ⟨trainRunPhase_train_metrics env s, rfl, rfl⟩,
    trainLoop_sched_len,
    fun env s => ⟨teacherRunPhase_train_metrics env s, rfl, rfl⟩,
    teacherLoop_sched_len⟩

/-- C7 counterexample: the claim says both stages construct the plateau
scheduler to maximize the monitored metric and to halve the learning rate.
At a concrete invocation, the stage-2 scheduler of train_kd is constructed
with the torch default mode min (not max), and the stage-1 scheduler of
train_kd is constructed with factor 0.1 (not the halving factor 0.5). -/
theorem stage2_scheduler_not_max_cx :
    (Train.stage2State (Train.stage1Init emptyModel idUpdate) emptyModel
        idUpdate).scheduler.config.mode = SchedMode.min
  ∧ decide (SchedMode.min = SchedMode.max) = false
  ∧ (Train.stage1Init emptyModel idUpdate).scheduler.config.factor = 1/10
  ∧ (((1 : ℚ)/10) == ((1 : ℚ)/2)) = false
  ∧ (Teacher.stage2State (Teacher.stage1Init emptyModel idUpdate) emptyModel
        idUpdate).scheduler.config.mode = SchedMode.min := by
  refine ⟨rfl, rfl, rfl, ?_, rfl⟩
  rw [beq_eq_false_iff_ne]
  norm_num

/-- C7 amended: the stage-1 schedulers of both controllers are constructed
to maximize the monitored accuracy metric, with patience 3; the stage-2
schedulers are constructed with the torch default minimize mode and
patience 2; the factor is 0.1 in src/train.py and 0.5 (halving) in
src/distiller/teacher_train.py; each configuration stays in force for the
whole of its stage. -/
theorem scheduler_configs_as_constructed (env : Env) (n : ℕ) (m m1 : Model)
    (upd1 upd2 : List ℚ → List ℚ → List ℚ × List ℚ) (s1 : RunState) :
    (Train.train env n (Train.stage1Init m upd1)).scheduler.config
        = ⟨SchedMode.max, 1/10, 3⟩
  ∧ (Train.train env n (Train.stage2State s1 m1 upd2)).scheduler.config
        = ⟨SchedMode.min, 1/10, 2⟩
  ∧ (Teacher.train env n (Teacher.stage1Init m upd1)).scheduler.config
        = ⟨SchedMode.max, 1/2, 3⟩
  ∧ (Teacher.train env n (Teacher.stage2State s1 m1 upd2)).scheduler.config
        = ⟨SchedMode.min, 1/2, 2⟩ := by
  refine ⟨?_, ?_, ?_, ?_⟩
  · exact (trainLoop_sched_config env n _).trans rfl
  · exact (trainLoop_sched_config env n _).trans rfl
  · exact (teacherLoop_sched_config env n _).trans rfl
  · exact (teacherLoop_sched_config env n _).trans rfl

/-- C8 counterexample: train_kd has a single epoch-count parameter; at the
concrete invocation with epochs 2 both of its stage runners execute exactly
2 epochs (2 scheduler advancements each, starting from a fresh scheduler),
so no train_kd invocation can run a frozen-stage count of 2 together with a
distinct unfrozen-stage count such as 3. -/
theorem train_kd_single_epoch_count_cx :
    (Train.train emptyEnv 2
        (Train.stage1Init emptyModel idUpdate)).scheduler.metrics.length = 2
  ∧ ((Train.train emptyEnv 2 (Train.stage1Init emptyModel idUpdate)).student.load_state_dict
        (Train.train emptyEnv 2 (Train.stage1Init emptyModel idUpdate)).best).map
      (fun m1 => (Train.train emptyEnv 2 (Train.stage2State
          (Train.train emptyEnv 2 (Train.stage1Init emptyModel idUpdate))
          m1 idUpdate)).scheduler.metrics.length)
      = Except.ok 2
  ∧ decide ((2 : ℕ) = 3) = false := by
  obtain ⟨d, hd⟩ := trainStage1_best_sd emptyEnv 2 emptyModel idUpdate
  refine ⟨?_, ?_, rfl⟩
  · simpa using trainLoop_sched_len emptyEnv 2 (Train.stage1Init emptyModel idUpdate)
  · rw [hd, load_state_dict_of_sd]
    simp only [Except.map]
    congr 1

/-- C8 amended: training in src/distiller/teacher_train.py accepts two
distinct epoch counts and runs its stage-1 runner for epochs_freeze epochs
and its stage-2 runner for epochs_unfreeze epochs; train_kd in src/train.py
accepts a single epoch count and runs both of its stages for that same
count (epoch counts measured by the number of advancements of the fresh
per-stage scheduler). -/
theorem stage_epoch_counts (env : Env) (e ef eu : ℕ) (m m1 : Model)
    (upd1 upd2 : List ℚ → List ℚ → List ℚ × List ℚ) (s1 : RunState) :
    (Train.train env e (Train.stage1Init m upd1)).scheduler.metrics.length = e
  ∧ (Train.train env e (Train.stage2State s1 m1 upd2)).scheduler.metrics.length = e
  ∧ (Teacher.train env ef (Teacher.stage1Init m upd1)).scheduler.metrics.length = ef
  ∧ (Teacher.train env eu (Teacher.stage2State s1 m1 upd2)).scheduler.metrics.length
      = eu := by
  refine ⟨?_, ?_, ?_, ?_⟩ <;>
    simp [trainLoop_sched_len, teacherLoop_sched_len, Train.stage1Init,
      Train.stage2State, Teacher.stage1Init, Teacher.stage2State]


/-- C9: the validate phase of both runners mutates no model parameter and
performs no optimizer step (head parameters, backbone parameters and the
optimizer are unchanged), so running the validate phase twice in succession
on the same model and the same data yields identical epoch loss and epoch
accuracy both times. -/
theorem val_phase_idempotent (env : Env) (s : RunState) :
    (Train.runPhase env Phase.val s).1.student.head = s.student.head
  ∧ (Train.runPhase env Phase.val s).1.student.backbone = s.student.backbone
  ∧ (Train.runPhase env Phase.val s).1.optimizer = s.optimizer
  ∧ (Train.runPhase env Phase.val (Train.runPhase env Phase.val s).1).2
      = (Train.runPhase env Phase.val s).2
  ∧ (Teacher.runPhase env Phase.val s).1.student.head = s.student.head
  ∧ (Teacher.runPhase env Phase.val s).1.student.backbone = s.student.backbone
  ∧ (Teacher.runPhase env Phase.val s).1.optimizer = s.optimizer
  ∧ (Teacher.runPhase env Phase.val (Teacher.runPhase env Phase.val s).1).2
      = (Teacher.runPhase env Phase.val s).2 := by
  refine ⟨?_, ?_, trainRunPhase_val_optimizer env s, trainValMetrics_idem env s,
    ?_, ?_, teacherRunPhase_val_optimizer env s, teacherValMetrics_idem env s⟩
  · rw [trainRunPhase_val_student]
  · rw [trainRunPhase_val_student]
  · rw [teacherRunPhase_val_student]
  · rw [teacherRunPhase_val_student]

/-- C10: in train_kd with path_save_weight left at None, the existence check
of the weights directory is inverted: os.makedirs(Weights) is invoked
exactly when the directory already exists, so the call raises
FileExistsError, and when the directory is missing it is never created and
the derived save path points into the still-missing directory.  The last
two conjuncts show makedirs itself: it raises on an existing directory and
creates a missing one, confirming the inversion. -/
theorem default_path_inverted_dir_check (name : String) :
    Train.resolvePath none name ⟨true⟩ = Except.error PyErr.fileExistsError
  ∧ Train.resolvePath none name ⟨false⟩
      = Except.ok ("Weights/" ++ name ++ ".pth", ⟨false⟩)
  ∧ makedirs ⟨true⟩ = Except.error PyErr.fileExistsError
  ∧ makedirs ⟨false⟩ = Except.ok ⟨true⟩ :=
  ⟨rfl, rfl, rfl, rfl⟩
